import Mathlib

/-!
Shallow embedding of the WebGPU grid demo (src/webgpu App component and its
draw routine) together with theorems checking the natural-language
specification against it.

The embedding models:
* JavaScript Float32Array element conversion as round-to-nearest-even
  IEEE-754 binary32 encoding of exact rationals (`encodeF32Q`), with the
  byte image of an array given little-endian per element;
* the GPU API calls performed by `setup` and `draw` as a trace of
  `GPUCommand` values;
* the React component state (`useState(4)`, the `useInterval` tick, the
  click handler) as a transition system on natural numbers;
* the refs (`deviceRef`, `contextRef`, `pipelineRef`, `vertexBufferRef`,
  `verticesRef`) as a record of `Option`s, `none` meaning `undefined`.
-/

namespace WebgpuGrid

/-- Round a nonnegative rational to the nearest natural number, ties going
to even (the rounding used by IEEE-754 conversions). -/
def rneNat (q : ℚ) : ℕ :=
  let n := q.num.toNat
  let d := q.den
  let quot := n / d
  let r := n % d
  if 2 * r > d ∨ (2 * r = d ∧ quot % 2 = 1) then quot + 1 else quot

/-- IEEE-754 binary32 bit pattern (as a natural number below 2^32) of a
rational, rounding to nearest, ties to even.  This models what
`new Float32Array([x, ...])` stores for element `x` in JavaScript.
Values whose magnitude rounds to at least 2^128 map to the infinity
pattern; NaN never arises from a rational input. -/
def encodeF32Q (q : ℚ) : ℕ :=
  if q = 0 then 0
  else
    let s : ℕ := if q < 0 then 2 ^ 31 else 0
    let a : ℚ := |q|
    let e : ℤ := Int.log 2 a
    if 128 ≤ e then s + 255 * 2 ^ 23
    else if e < -126 then
      let sig := rneNat (a * 2 ^ (149 : ℤ))
      s + sig
    else
      let sig := rneNat (a * 2 ^ (23 - e))
      if sig = 2 ^ 24 then
        if e = 127 then s + 255 * 2 ^ 23
        else s + (e + 128).toNat * 2 ^ 23
      else s + (e + 127).toNat * 2 ^ 23 + (sig - 2 ^ 23)

/-- Little-endian byte image of a 32-bit word, as stored in the backing
store of a `Float32Array`. -/
def f32leBytes (bits : ℕ) : List ℕ :=
  [bits % 256, bits / 256 % 256, bits / 65536 % 256, bits / 16777216 % 256]

/-- Byte image of a whole `Float32Array`, given the list of 32-bit element
patterns: 4 bytes per element, little-endian, no padding. -/
def f32ArrayBytes (elems : List ℕ) : List ℕ :=
  (elems.map f32leBytes).flatten

/-- Decode 4 little-endian bytes as an IEEE-754 binary32 value, as an exact
rational.  Exponent field 0 is the subnormal range; the infinity/NaN field
255 has no rational value and the model returns 0 for it (it never arises
from the encodings considered here).  Any list not of length 4 decodes
to 0. -/
def decodeF32 (bs : List ℕ) : ℚ :=
  match bs with
  | [b0, b1, b2, b3] =>
    let bits : ℕ := b0 + 256 * b1 + 65536 * b2 + 16777216 * b3
    let sign : ℕ := bits / 2 ^ 31
    let e : ℕ := bits / 2 ^ 23 % 256
    let m : ℕ := bits % 2 ^ 23
    let mag : ℚ :=
      if e = 0 then (m : ℚ) * (2 : ℚ) ^ (-149 : ℤ)
      else if e = 255 then 0
      else ((2 ^ 23 + m : ℕ) : ℚ) * (2 : ℚ) ^ ((e : ℤ) - 150)
    if sign = 1 then -mag else mag
  | _ => 0

/-- Trace alphabet: the GPU API calls issued by `setup` and `draw`,
abstracted to the data the specification talks about.  Buffers are
identified by their `label`; `writeBuffer` records the byte image written. -/
inductive GPUCommand where
  | createBuffer (label : String) (size : ℕ)
  | writeBuffer (bufferLabel : String) (offset : ℕ) (data : List ℕ)
  | configureContext
  | createShaderModule (label : String)
  | createRenderPipeline (label : String)
  | createBindGroup (label : String)
  | beginRenderPass
  | setPipeline
  | setVertexBuffer (slot : ℕ) (bufferLabel : String)
  | setBindGroup (index : ℕ)
  | drawCall (vertexCount : ℕ) (instanceCount : ℕ)
  | endPass
  | submit
  deriving DecidableEq

/-- Recognize a draw call in a trace. -/
def isDrawCall : GPUCommand → Bool
  | .drawCall _ _ => true
  | _ => false

/-- Recognize any buffer write in a trace. -/
def isWriteBuffer : GPUCommand → Bool
  | .writeBuffer _ _ _ => true
  | _ => false

/-- Recognize a write to the buffer with the given label. -/
def isWriteTo (label : String) : GPUCommand → Bool
  | .writeBuffer l _ _ => l = label
  | _ => false

/-- Element patterns of `new Float32Array([GRID_SIZE, GRID_SIZE])`, the
uniform array built by `draw`. -/
def uniformArray (GRID_SIZE : ℕ) : List ℕ :=
  [encodeF32Q (GRID_SIZE : ℚ), encodeF32Q (GRID_SIZE : ℚ)]

/-- Byte image written into the uniform buffer for a given grid size. -/
def uniformBytes (GRID_SIZE : ℕ) : List ℕ :=
  f32ArrayBytes (uniformArray GRID_SIZE)

/-- Trace of the `draw` function (src lines 30-79): it allocates a fresh
uniform buffer sized `uniformArray.byteLength` (4 bytes per element),
writes the uniform array into it, builds a bind group, records one render
pass that sets the pipeline, the vertex buffer and the bind group, issues
`pass.draw(vertices.length / 2, GRID_SIZE * GRID_SIZE)`, and submits.
`vertices` carries the element patterns of the Float32Array argument, so
`vertices.length` is the JavaScript `length` (element count). -/
def draw (vertexBuffer : String) (vertices : List ℕ) (GRID_SIZE : ℕ) :
    List GPUCommand :=
  [ .createBuffer "Grid Uniforms" (4 * (uniformArray GRID_SIZE).length),
    .writeBuffer "Grid Uniforms" 0 (uniformBytes GRID_SIZE),
    .createBindGroup "Cell renderer bind group",
    .beginRenderPass,
    .setPipeline,
    .setVertexBuffer 0 vertexBuffer,
    .setBindGroup 0,
    .drawCall (vertices.length / 2) (GRID_SIZE * GRID_SIZE),
    .endPass,
    .submit ]

/-- The fixed quad: the 12 numbers of the vertex Float32Array literal in
`setup` (two triangles, 6 vertices of 2 coordinates each). -/
def quadVertices : List ℚ :=
  [-(4/5 : ℚ), -(4/5 : ℚ), (4/5 : ℚ), -(4/5 : ℚ), (4/5 : ℚ), (4/5 : ℚ),
   -(4/5 : ℚ), -(4/5 : ℚ), (4/5 : ℚ), (4/5 : ℚ), -(4/5 : ℚ), (4/5 : ℚ)]

/-- Element patterns of the vertex Float32Array created by `setup`. -/
def quadVertexArray : List ℕ :=
  quadVertices.map encodeF32Q

/-- The component's refs: `none` models an `undefined` `ref.current`.
`vertexBuffer` holds the buffer's label, `vertices` the Float32Array's
element patterns. -/
structure RefsState where
  device : Option Unit
  context : Option Unit
  pipeline : Option Unit
  vertexBuffer : Option String
  vertices : Option (List ℕ)
  deriving DecidableEq

/-- All refs start out `undefined`. -/
def initialRefs : RefsState :=
  ⟨none, none, none, none, none⟩

/-- Host environment facts `setup` probes: whether `requestAdapter`
returns an adapter, whether the canvas ref is populated, and whether
`getContext` yields a webgpu context. -/
structure Env where
  adapter : Bool
  canvas : Bool
  webgpuContext : Bool
  deriving DecidableEq

/-- Trace-and-state semantics of `setup` (src lines 92-164), started from
the given refs.  It requests an adapter and returns if none; stores the
device; returns if the canvas ref is empty; returns if `getContext`
yields no context; then configures the context, creates and writes the
vertex buffer, compiles the shader module and creates the pipeline. -/
def setup (env : Env) (refs : RefsState) : RefsState × List GPUCommand :=
  if !env.adapter then (refs, [])
  else
    let refs1 : RefsState := { refs with device := some () }
    if !env.canvas then (refs1, [])
    else if !env.webgpuContext then (refs1, [])
    else
      let refs2 : RefsState :=
        { refs1 with
            context := some ()
            vertices := some quadVertexArray
            vertexBuffer := some "Cell vertices"
            pipeline := some () }
      (refs2,
        [ .configureContext,
          .createBuffer "Cell vertices" (4 * quadVertexArray.length),
          .writeBuffer "Cell vertices" 0 (f32ArrayBytes quadVertexArray),
          .createShaderModule "Cell shader",
          .createRenderPipeline "Cell pipeline" ])

/-- The `useState(4)` initial grid size. -/
def initialGridSize : ℕ := 4

/-- Events that mutate the grid size: the `useInterval` timer tick and the
Restart button's click handler. -/
inductive GridEvent where
  | tick
  | reset
  deriving DecidableEq

/-- State update of one event: the tick runs
`setGridSize(Math.min(gridSize + 1, 2 ** 9))` (src lines 169-171); the
click handler runs `setGridSize(2)` (src lines 192-194). -/
def applyEvent (gridSize : ℕ) : GridEvent → ℕ
  | .tick => min (gridSize + 1) (2 ^ 9)
  | .reset => 2

/-- Grid size after a sequence of events, from a given size. -/
def runEvents (gridSize : ℕ) (events : List GridEvent) : ℕ :=
  events.foldl applyEvent gridSize

/-- Grid sizes reachable in a session: the initial `useState(4)` value and
everything obtainable from it by ticks and resets. -/
inductive ReachableGrid : ℕ → Prop where
  | init : ReachableGrid initialGridSize
  | step (s : ℕ) (e : GridEvent) : ReachableGrid s → ReachableGrid (applyEvent s e)

/-- The effect observing `gridSize` (src lines 173-190): if any of the five
refs is still `undefined` it returns without drawing, otherwise it invokes
`draw` with the refs' contents and the current grid size. -/
def onGridSizeChange (refs : RefsState) (gridSize : ℕ) : List GPUCommand :=
  match refs.device, refs.context, refs.pipeline, refs.vertexBuffer, refs.vertices with
  | some _, some _, some _, some vb, some vs => draw vb vs gridSize
  | _, _, _, _, _ => []

/-! ### Grid-size state machine -/

/-- Helper: every reachable grid size lies in [2, 512].  (Shared by the
invariant and monotonicity theorems.) -/
lemma reachableGrid_bounds (s : ℕ) (h : ReachableGrid s) : 2 ≤ s ∧ s ≤ 512 := by
  induction h with
  | init => exact ⟨by norm_num [initialGridSize], by norm_num [initialGridSize]⟩
  | step s e _ ih =>
    cases e with
    | tick => simp only [applyEvent]; omega
    | reset => simp [applyEvent]

/-- C2: one timer tick maps grid size s to min(s + 1, 512); on reachable
sizes this is non-decreasing, never exceeds 512, and is idempotent at the
cap 512. -/
theorem tick_saturating_increment (s : ℕ) (hs : ReachableGrid s) :
    applyEvent s GridEvent.tick = min (s + 1) 512 ∧
    s ≤ applyEvent s GridEvent.tick ∧
    applyEvent s GridEvent.tick ≤ 512 ∧
    applyEvent 512 GridEvent.tick = 512 := by
  have hb := reachableGrid_bounds s hs
  refine ⟨rfl, ?_, ?_, rfl⟩
  · simp only [applyEvent]; omega
  · simp only [applyEvent]; omega

theorem tick_saturating_increment_witness :
    applyEvent initialGridSize GridEvent.tick = min (initialGridSize + 1) 512 ∧
    initialGridSize ≤ applyEvent initialGridSize GridEvent.tick ∧
    applyEvent initialGridSize GridEvent.tick ≤ 512 ∧
    applyEvent 512 GridEvent.tick = 512 :=
  tick_saturating_increment initialGridSize ReachableGrid.init

/-- C3: the click handler sets the grid size to exactly 2, whatever the
prior value was. -/
theorem reset_sets_grid_to_two (s : ℕ) : applyEvent s GridEvent.reset = 2 :=
  rfl

/-- C5: on every state reachable from the initial state by ticks and
resets, the grid size is between 2 and 512. -/
theorem grid_size_invariant (s : ℕ) (h : ReachableGrid s) : 2 ≤ s ∧ s ≤ 512 :=
  reachableGrid_bounds s h

theorem grid_size_invariant_witness : 2 ≤ initialGridSize ∧ initialGridSize ≤ 512 :=
  grid_size_invariant initialGridSize ReachableGrid.init

/-- C9: the session starts at grid size 4 (`useState(4)`), so the first
draw issues 16 instances (and 6 vertices). -/
theorem initial_grid_size_is_four :
    initialGridSize = 4 ∧
    (draw "Cell vertices" quadVertexArray initialGridSize).filter isDrawCall =
      [GPUCommand.drawCall 6 16] := by
  constructor
  · rfl
  · simp [draw, isDrawCall, initialGridSize, quadVertexArray, quadVertices]

/-! ### Exactness of the float32 round trip on small naturals -/

/-- Helper: rounding a natural number (as a rational) is exact. -/
lemma rneNat_natCast (m : ℕ) : rneNat (m : ℚ) = m := by
  simp [rneNat, Nat.mod_one]

/-- Helper: a 32-bit word is recovered from its four little-endian bytes. -/
lemma le_bytes_recombine (b : ℕ) (hb : b < 2 ^ 32) :
    b % 256 + 256 * (b / 256 % 256) + 65536 * (b / 65536 % 256) +
      16777216 * (b / 16777216 % 256) = b := by
  omega

/-- Helper: the binary32 encoding of a natural number in [1, 2^24) is the
normal pattern with exponent field log2 n + 127 and mantissa field
n * 2^(23 - log2 n) - 2^23. -/
lemma encodeF32Q_nat (n : ℕ) (h1 : 1 ≤ n) (h2 : n < 2 ^ 24) :
    encodeF32Q (n : ℚ) =
      (Nat.log2 n + 127) * 2 ^ 23 + (n * 2 ^ (23 - Nat.log2 n) - 2 ^ 23) := by
  set k := Nat.log2 n with hk
  have hkn : 2 ^ k ≤ n := Nat.log2_self_le (by omega)
  have hnk : n < 2 ^ (k + 1) := Nat.lt_log2_self
  have hk23 : k ≤ 23 := by
    by_contra hcon
    have h24 : (2 : ℕ) ^ 24 ≤ 2 ^ k := Nat.pow_le_pow_right (by norm_num) (by omega)
    omega
  have hq0 : ((n : ℚ)) ≠ 0 := Nat.cast_ne_zero.mpr (by omega)
  have hqneg : ¬((n : ℚ) < 0) := not_lt.mpr (by positivity)
  have habs : |(n : ℚ)| = (n : ℚ) := abs_of_nonneg (by positivity)
  have hlog : Int.log 2 ((n : ℚ)) = (k : ℤ) := by
    rw [Int.log_natCast, hk, Nat.log2_eq_log_two]
  have hcast : ((n : ℚ)) * (2 : ℚ) ^ ((23 : ℤ) - (k : ℤ)) =
      ((n * 2 ^ (23 - k) : ℕ) : ℚ) := by
    have he : (23 : ℤ) - (k : ℤ) = ((23 - k : ℕ) : ℤ) := by omega
    rw [he, zpow_natCast]
    push_cast
    ring
  have hsig_lt : n * 2 ^ (23 - k) < 2 ^ 24 := by
    have hpos : 0 < 2 ^ (23 - k) := by positivity
    have hmul : n * 2 ^ (23 - k) < 2 ^ (k + 1) * 2 ^ (23 - k) :=
      (Nat.mul_lt_mul_right hpos).mpr hnk
    have hpow : 2 ^ (k + 1) * 2 ^ (23 - k) = 2 ^ 24 := by
      rw [← pow_add]
      congr 1
      omega
    omega
  have hsig_ge : 2 ^ 23 ≤ n * 2 ^ (23 - k) := by
    have hmul : 2 ^ k * 2 ^ (23 - k) ≤ n * 2 ^ (23 - k) :=
      Nat.mul_le_mul_right _ hkn
    have hpow : 2 ^ k * 2 ^ (23 - k) = 2 ^ 23 := by
      rw [← pow_add]
      congr 1
      omega
    omega
  have h128 : ¬((128 : ℤ) ≤ (k : ℤ)) := by omega
  have h126 : ¬((k : ℤ) < -126) := by omega
  have hne24 : ¬((n * 2 ^ (23 - k) : ℕ) = 2 ^ 24) := by omega
  have htn : ((k : ℤ) + 127).toNat = k + 127 := by omega
  simp only [encodeF32Q, hq0, if_false, hqneg, habs, hlog, h128, h126, hcast,
    rneNat_natCast, hne24, htn, ite_false, if_neg, not_false_iff]
  ring

/-- C4 core: decoding the four little-endian bytes of the binary32
encoding of a natural number in [1, 2^24) recovers the number exactly. -/
lemma decode_encode_natF32 (n : ℕ) (h1 : 1 ≤ n) (h2 : n < 2 ^ 24) :
    decodeF32 (f32leBytes (encodeF32Q (n : ℚ))) = (n : ℚ) := by
  set k := Nat.log2 n with hk
  have hkn : 2 ^ k ≤ n := Nat.log2_self_le (by omega)
  have hnk : n < 2 ^ (k + 1) := Nat.lt_log2_self
  have hk23 : k ≤ 23 := by
    by_contra hcon
    have h24 : (2 : ℕ) ^ 24 ≤ 2 ^ k := Nat.pow_le_pow_right (by norm_num) (by omega)
    omega
  have hsig_lt : n * 2 ^ (23 - k) < 2 ^ 24 := by
    have hpos : 0 < 2 ^ (23 - k) := by positivity
    have hmul : n * 2 ^ (23 - k) < 2 ^ (k + 1) * 2 ^ (23 - k) :=
      (Nat.mul_lt_mul_right hpos).mpr hnk
    have hpow : 2 ^ (k + 1) * 2 ^ (23 - k) = 2 ^ 24 := by
      rw [← pow_add]
      congr 1
      omega
    omega
  have hsig_ge : 2 ^ 23 ≤ n * 2 ^ (23 - k) := by
    have hmul : 2 ^ k * 2 ^ (23 - k) ≤ n * 2 ^ (23 - k) :=
      Nat.mul_le_mul_right _ hkn
    have hpow : 2 ^ k * 2 ^ (23 - k) = 2 ^ 23 := by
      rw [← pow_add]
      congr 1
      omega
    omega
  rw [encodeF32Q_nat n h1 h2, ← hk]
  set b : ℕ := (k + 127) * 2 ^ 23 + (n * 2 ^ (23 - k) - 2 ^ 23) with hbdef
  have hb32 : b < 2 ^ 32 := by omega
  have hb31 : b / 2 ^ 31 = 0 := by omega
  have hbe : b / 2 ^ 23 % 256 = k + 127 := by omega
  have hbm : b % 2 ^ 23 = n * 2 ^ (23 - k) - 2 ^ 23 := by omega
  have hrecomb : b % 256 + 256 * (b / 256 % 256) + 65536 * (b / 65536 % 256) +
      16777216 * (b / 16777216 % 256) = b := le_bytes_recombine b hb32
  simp only [f32leBytes, decodeF32, hrecomb, hb31, hbe, hbm]
  have he0 : ¬(k + 127 = 0) := by omega
  have he255 : ¬(k + 127 = 255) := by omega
  have hmadd : 2 ^ 23 + (n * 2 ^ (23 - k) - 2 ^ 23) = n * 2 ^ (23 - k) := by omega
  simp only [he0, he255, ite_false, if_neg, not_false_iff, hmadd]
  have hez : ((k + 127 : ℕ) : ℤ) - 150 = ((k : ℤ) - 23) := by omega
  rw [hez]
  have hsplit : ((n * 2 ^ (23 - k) : ℕ) : ℚ) =
      (n : ℚ) * (2 : ℚ) ^ (((23 - k : ℕ) : ℤ)) := by
    rw [zpow_natCast]
    push_cast
    ring
  rw [hsplit, mul_assoc, ← zpow_add₀ (two_ne_zero)]
  have hzero : (((23 - k : ℕ) : ℤ)) + ((k : ℤ) - 23) = 0 := by omega
  rw [hzero, zpow_zero, mul_one]
  norm_num

/-- C4: for every grid size in [2, 512], the draw's single buffer write
targets the fresh uniform buffer with exactly 8 bytes (two 32-bit floats,
no padding), and decoding the two 4-byte halves as float32 yields exactly
(g, g). -/
theorem uniform_buffer_roundtrip (g : ℕ) (h2 : 2 ≤ g) (h512 : g ≤ 512) :
    (∀ vb vs, (draw vb vs g).filter isWriteBuffer =
      [GPUCommand.writeBuffer "Grid Uniforms" 0 (uniformBytes g)]) ∧
    (uniformBytes g).length = 8 ∧
    decodeF32 ((uniformBytes g).take 4) = (g : ℚ) ∧
    decodeF32 ((uniformBytes g).drop 4) = (g : ℚ) := by
  have hlen : (f32leBytes (encodeF32Q (g : ℚ))).length = 4 := rfl
  have hbytes : uniformBytes g =
      f32leBytes (encodeF32Q (g : ℚ)) ++ f32leBytes (encodeF32Q (g : ℚ)) := by
    simp [uniformBytes, f32ArrayBytes, uniformArray]
  have hrt : decodeF32 (f32leBytes (encodeF32Q (g : ℚ))) = (g : ℚ) :=
    decode_encode_natF32 g (by omega) (by omega)
  refine ⟨?_, ?_, ?_, ?_⟩
  · intro vb vs
    simp [draw, isWriteBuffer]
  · rw [hbytes]
    simp [hlen]
  · rw [hbytes, ← hlen, List.take_left, hrt]
  · rw [hbytes, ← hlen, List.drop_left, hrt]

theorem uniform_buffer_roundtrip_witness :
    (∀ vb vs, (draw vb vs 4).filter isWriteBuffer =
      [GPUCommand.writeBuffer "Grid Uniforms" 0 (uniformBytes 4)]) ∧
    (uniformBytes 4).length = 8 ∧
    decodeF32 ((uniformBytes 4).take 4) = (4 : ℚ) ∧
    decodeF32 ((uniformBytes 4).drop 4) = (4 : ℚ) :=
  uniform_buffer_roundtrip 4 (by decide) (by decide)

/-! ### Draw-call and setup traces -/

/-- C1: for every grid size in [2, 512], `draw` issues exactly one draw
call, with instance count g*g and vertex count = vertex array length / 2,
which is 6 for the fixed quad. -/
theorem draw_one_instanced_call (g : ℕ) (_h2 : 2 ≤ g) (_h512 : g ≤ 512) :
    (∀ vb vs, (draw vb vs g).filter isDrawCall =
      [GPUCommand.drawCall (vs.length / 2) (g * g)]) ∧
    quadVertexArray.length / 2 = 6 := by
  constructor
  · intro vb vs
    simp [draw, isDrawCall]
  · simp [quadVertexArray, quadVertices]

theorem draw_one_instanced_call_witness :
    (∀ vb vs, (draw vb vs 2).filter isDrawCall =
      [GPUCommand.drawCall (vs.length / 2) 4]) ∧
    quadVertexArray.length / 2 = 6 :=
  draw_one_instanced_call 2 (by decide) (by decide)

/-- Helper: the successful-setup environment (adapter, canvas and context
all available). -/
def fullEnv : Env := ⟨true, true, true⟩

/-- Helper: a draw never writes to the "Cell vertices" buffer — its only
buffer write targets "Grid Uniforms". -/
lemma draw_no_vertex_write (vb : String) (vs : List ℕ) (g : ℕ) :
    (draw vb vs g).filter (isWriteTo "Cell vertices") = [] := by
  simp [draw, isWriteTo]

/-- Helper: no sequence of grid-size-change reactions after a successful
setup ever writes to the vertex buffer. -/
lemma reactions_no_vertex_write (gridSizes : List ℕ) :
    ((gridSizes.map (onGridSizeChange (setup fullEnv initialRefs).1)).flatten).filter
      (isWriteTo "Cell vertices") = [] := by
  induction gridSizes with
  | nil => rfl
  | cons g gs ih =>
    have hdraw : onGridSizeChange (setup fullEnv initialRefs).1 g =
        draw "Cell vertices" quadVertexArray g := rfl
    simp only [List.map_cons, List.flatten_cons, List.filter_append, ih, hdraw,
      draw_no_vertex_write, List.append_nil]

/-- C6: a full session (setup followed by any sequence of grid-size
reactions) contains exactly one write to the vertex buffer; it happens in
setup and carries the byte image of the fixed 12-float quad, and no
invocation of `draw` writes to the vertex buffer. -/
theorem vertex_buffer_written_once :
    ((setup fullEnv initialRefs).2.filter (isWriteTo "Cell vertices") =
      [GPUCommand.writeBuffer "Cell vertices" 0 (f32ArrayBytes quadVertexArray)]) ∧
    (∀ vb vs g, (draw vb vs g).filter (isWriteTo "Cell vertices") = []) ∧
    (∀ gridSizes : List ℕ,
      ((setup fullEnv initialRefs).2 ++
        (gridSizes.map (onGridSizeChange (setup fullEnv initialRefs).1)).flatten).filter
        (isWriteTo "Cell vertices") =
      [GPUCommand.writeBuffer "Cell vertices" 0 (f32ArrayBytes quadVertexArray)]) := by
  refine ⟨by simp [setup, fullEnv, isWriteTo], draw_no_vertex_write, ?_⟩
  intro gridSizes
  rw [List.filter_append, reactions_no_vertex_write, List.append_nil]
  simp [setup, fullEnv, isWriteTo]

/-- C7: when no adapter is available, setup leaves every ref undefined and
issues no GPU command, and no grid-size change ever draws; when the canvas
or its webgpu context is missing, setup stops at that check, leaving
context, pipeline, vertex buffer and vertices undefined, issuing no GPU
command, and no grid-size change draws. -/
theorem setup_aborts_silently (env : Env) :
    (env.adapter = false →
      setup env initialRefs = (initialRefs, []) ∧
      ∀ g, onGridSizeChange (setup env initialRefs).1 g = []) ∧
    (env.adapter = true → env.canvas = false →
      (setup env initialRefs).1.context = none ∧
      (setup env initialRefs).1.pipeline = none ∧
      (setup env initialRefs).1.vertexBuffer = none ∧
      (setup env initialRefs).1.vertices = none ∧
      (setup env initialRefs).2 = [] ∧
      ∀ g, onGridSizeChange (setup env initialRefs).1 g = []) ∧
    (env.adapter = true → env.canvas = true → env.webgpuContext = false →
      (setup env initialRefs).1.context = none ∧
      (setup env initialRefs).1.pipeline = none ∧
      (setup env initialRefs).1.vertexBuffer = none ∧
      (setup env initialRefs).1.vertices = none ∧
      (setup env initialRefs).2 = [] ∧
      ∀ g, onGridSizeChange (setup env initialRefs).1 g = []) := by
  obtain ⟨a, c, w⟩ := env
  refine ⟨?_, ?_, ?_⟩ <;> intro h <;> subst h
  · exact ⟨rfl, fun g => rfl⟩
  · intro h
    subst h
    exact ⟨rfl, rfl, rfl, rfl, rfl, fun g => rfl⟩
  · intro h hw
    subst h
    subst hw
    exact ⟨rfl, rfl, rfl, rfl, rfl, fun g => rfl⟩

theorem setup_aborts_silently_witness :
    setup ⟨false, true, true⟩ initialRefs = (initialRefs, []) :=
  ((setup_aborts_silently ⟨false, true, true⟩).1 rfl).1

/-- C8: if any of the five refs is undefined when a grid-size change is
observed, no draw happens at all; once setup has completed (adapter,
canvas and context all available), a grid-size change performs the draw
with the stored vertex buffer and vertices. -/
theorem draw_skipped_until_ready :
    (∀ refs g, (refs.device = none ∨ refs.context = none ∨ refs.pipeline = none ∨
        refs.vertexBuffer = none ∨ refs.vertices = none) →
      onGridSizeChange refs g = []) ∧
    (∀ env g, env.adapter = true → env.canvas = true → env.webgpuContext = true →
      onGridSizeChange (setup env initialRefs).1 g =
        draw "Cell vertices" quadVertexArray g) := by
  constructor
  · intro refs g h
    obtain ⟨d, c, p, vb, vs⟩ := refs
    cases d <;> cases c <;> cases p <;> cases vb <;> cases vs <;>
      simp_all [onGridSizeChange]
  · intro env g ha hc hw
    obtain ⟨a, c, w⟩ := env
    subst ha
    subst hc
    subst hw
    rfl

theorem draw_skipped_until_ready_witness :
    onGridSizeChange initialRefs 4 = [] ∧
    onGridSizeChange (setup ⟨true, true, true⟩ initialRefs).1 4 =
      draw "Cell vertices" quadVertexArray 4 :=
  ⟨draw_skipped_until_ready.1 initialRefs 4 (Or.inl rfl),
   draw_skipped_until_ready.2 ⟨true, true, true⟩ 4 rfl rfl rfl⟩

/-- C10: aborting at the missing-canvas or missing-context check is not
atomic: the device has already been requested and stored, so the state is
partially initialized (device defined, the rest undefined). -/
theorem setup_abort_partial_state :
    ((setup ⟨true, false, true⟩ initialRefs).1.device = some () ∧
     (setup ⟨true, false, true⟩ initialRefs).1.context = none ∧
     (setup ⟨true, false, true⟩ initialRefs).1.pipeline = none ∧
     (setup ⟨true, false, true⟩ initialRefs).1.vertexBuffer = none ∧
     (setup ⟨true, false, true⟩ initialRefs).1.vertices = none) ∧
    ((setup ⟨true, true, false⟩ initialRefs).1.device = some () ∧
     (setup ⟨true, true, false⟩ initialRefs).1.context = none ∧
     (setup ⟨true, true, false⟩ initialRefs).1.pipeline = none ∧
     (setup ⟨true, true, false⟩ initialRefs).1.vertexBuffer = none ∧
     (setup ⟨true, true, false⟩ initialRefs).1.vertices = none) :=
  ⟨⟨rfl, rfl, rfl, rfl, rfl⟩, ⟨rfl, rfl, rfl, rfl, rfl⟩⟩

end WebgpuGrid
